import Mathlib

/- Verification development for the Liquidity Zone Reversion Bot
   (src/BESTBOT_FullPythonCode.py).

   The bot's decision engine is embedded shallowly over ℚ:
   * pandas columns that can hold NaN because a rolling window is unfilled
     (`avg_volume`, `sma_200`, `rsi`) are modelled as `Option ℚ`; every
     comparison against such a value follows IEEE semantics (a comparison
     with NaN is false), which is how the Python gates behave.
   * exceptions that the source can raise inside `check_signal`
     (IndexError from `df.iloc[-2]` on a short frame, ZeroDivisionError from
     the position-sizing divisions) are modelled with `Except`; the source's
     blanket `except` handler maps them to `None`, modelled by `catch_none`.
     Note: in the buy branch the divisor of line 161 is a NumPy float64, so
     under a zero divisor real execution produces an infinity rather than a
     ZeroDivisionError; no theorem below about the buy branch depends on the
     behaviour at a zero divisor.
   * collaborators are parameters: `check_signal` receives the raw candle
     lists the exchange returned for the working and the daily fetch, and
     the `Option ℚ` outcomes of the balance fetches (`none` = the fetch
     failed or the asset is absent, mapped to 0 by `get_balance` exactly as
     in the source); `place_order` receives the outcome of the live
     order-submission call and additionally reports whether that
     collaborator was invoked.  -/

set_option allowUnsafeReducibility true
attribute [local semireducible] Rat.add Rat.sub Rat.neg Rat.mul Rat.inv Rat.ofScientific Rat.div
set_option maxRecDepth 1000000

namespace Bestbot

/-- Raw OHLCV candle as fetched from the exchange (one row of the `ohlcv`
list, line 64-65). `open` is a Lean keyword, so that field is `open_`. -/
structure Candle where
  open_ : ℚ
  high : ℚ
  low : ℚ
  close : ℚ
  volume : ℚ
deriving DecidableEq, Inhabited

/-- Configuration constants of lines 19-26.  `WICK_RATIO_MIN` models the
source's WICK_RATIO (renamed).  TAKE_PROFIT_RATIO and the telegram fields
are omitted: they only feed alert text and the live stop/take-profit
notification, outside every claim.  RSI_OVERBOUGHT/RSI_OVERSOLD are ints in
the source; ℚ holds them exactly. -/
structure Config where
  RISK_PERCENT : ℚ
  STOP_LOSS_PCT : ℚ
  MIN_VOLUME_FACTOR : ℚ
  RSI_OVERBOUGHT : ℚ
  RSI_OVERSOLD : ℚ
  WICK_RATIO_MIN : ℚ
  PAPER_TRADING : Bool
deriving DecidableEq, Inhabited

/-- Trailing-window arithmetic mean: pandas `Series.rolling(w).mean()`
evaluated at index `i`.  NaN (here `none`) until the window is filled,
i.e. while `i + 1 < w`; afterwards the mean of entries `i+1-w … i`. -/
def rollingMean (w : ℕ) (xs : List ℚ) (i : ℕ) : Option ℚ :=
  if i + 1 < w then none
  else some ((((xs.take (i + 1)).drop (i + 1 - w)).sum) / (w : ℚ))

/-- `series.diff()` at index `i` (line 57).  Index 0 is NaN in pandas; both
consumers wrap it in `.where(...)` which turns NaN into 0, so the NaN is
represented by 0 here, which the consumers produce anyway. -/
def deltaAt (xs : List ℚ) (i : ℕ) : ℚ :=
  if i = 0 then 0 else xs.getD i 0 - xs.getD (i - 1) 0

/-- `delta.where(delta > 0, 0)` at index `i` (line 58). -/
def gainAt (xs : List ℚ) (i : ℕ) : ℚ :=
  if 0 < deltaAt xs i then deltaAt xs i else 0

/-- `(-delta.where(delta < 0, 0))` at index `i` (line 59). -/
def lossAt (xs : List ℚ) (i : ℕ) : ℚ :=
  if deltaAt xs i < 0 then -(deltaAt xs i) else 0

/-- The gain series of line 58 before its rolling mean. -/
def gainSeries (xs : List ℚ) : List ℚ :=
  (List.range xs.length).map (gainAt xs)

/-- The loss series of line 59 before its rolling mean. -/
def lossSeries (xs : List ℚ) : List ℚ :=
  (List.range xs.length).map (lossAt xs)

/-- RSI of lines 56-61 at index `i` of the close series.
`rs = gain/loss` and `rsi = 100 - 100/(1+rs)` in floats: while either
rolling mean is NaN the result is NaN; when the loss average is 0 with a
positive gain average, `rs` is +inf and the result is exactly 100; when
both averages are 0, `rs` is NaN (0/0) and so is the result. -/
def calculate_rsi (xs : List ℚ) (i : ℕ) : Option ℚ :=
  match rollingMean 14 (gainSeries xs) i, rollingMean 14 (lossSeries xs) i with
  | some g, some l =>
      if l = 0 then (if g = 0 then none else some 100)
      else some (100 - 100 / (1 + g / l))
  | _, _ => none

/-- The `1e-8` guard of lines 72-73. -/
def eps : ℚ := 1 / 100000000

/-- One row of the enriched DataFrame produced by `get_data`
(lines 63-78): the raw candle plus the derived columns.  Columns that can
be NaN because their rolling window is unfilled are `Option ℚ`. -/
structure Row where
  open_ : ℚ
  high : ℚ
  low : ℚ
  close : ℚ
  volume : ℚ
  body : ℚ
  upper_wick : ℚ
  lower_wick : ℚ
  wick_ratio_upper : ℚ
  wick_ratio_lower : ℚ
  avg_volume : Option ℚ
  sma_200 : Option ℚ
  rsi : Option ℚ
deriving DecidableEq, Inhabited

/-- Row `i` of the enriched frame, computed from the raw candle list
exactly as lines 69-76 compute the columns. -/
def rowAt (candles : List Candle) (i : ℕ) : Row :=
  let c := candles.getD i default
  let closes := candles.map Candle.close
  let vols := candles.map Candle.volume
  let body := |c.close - c.open_|
  let uw := c.high - max c.open_ c.close
  let lw := min c.open_ c.close - c.low
  { open_ := c.open_
    high := c.high
    low := c.low
    close := c.close
    volume := c.volume
    body := body
    upper_wick := uw
    lower_wick := lw
    wick_ratio_upper := uw / (body + eps)
    wick_ratio_lower := lw / (body + eps)
    avg_volume := rollingMean 20 vols i
    sma_200 := rollingMean 200 closes i
    rsi := calculate_rsi closes i }

/-- Indicator pipeline `get_data` (lines 63-78) applied to the candle list
the exchange returned.  pandas builds the DataFrame and every derived
column without error for any length, including the empty list (an empty
frame in, an empty enriched frame out), so the function is total. -/
def get_data (candles : List Candle) : List Row :=
  (List.range candles.length).map (rowAt candles)

/-- Daily trend regime (the strings of lines 88-96). -/
inductive Trend where
  | bullish
  | bearish
  | unknown
deriving DecidableEq, Inhabited

/-- Trend classifier `get_daily_trend` (lines 80-96) applied to the candle
list returned for the daily fetch.  `df_daily.iloc[-1]` on an empty frame
raises IndexError, caught by line 94 and mapped to unknown; a NaN
`sma_200` gives unknown; otherwise close vs. sma decides. -/
def get_daily_trend (daily : List Candle) : Trend :=
  match (get_data daily).getLast? with
  | none => Trend.unknown
  | some latest =>
      match latest.sma_200 with
      | none => Trend.unknown
      | some s => if s < latest.close then Trend.bullish else Trend.bearish

/-- `get_balance` (lines 98-106): paper trading always reports 1000.0;
live mode reports the fetched free balance, with a failed fetch or a
missing asset (both `none` here) mapped to 0. -/
def get_balance (paper : Bool) (fetched : Option ℚ) : ℚ :=
  if paper then 1000 else fetched.getD 0

/-- Order direction (the `side` strings of lines 164 and 176). -/
inductive Side where
  | buy
  | sell
deriving DecidableEq, Inhabited

/-- The dict returned by `check_signal` on lines 164/176. -/
structure Signal where
  side : Side
  amount : ℚ
deriving DecidableEq, Inhabited

/-- Exceptions `check_signal` can raise internally: IndexError from
`df.iloc[-2]` on a frame shorter than 2, ZeroDivisionError from the
sizing divisions. -/
inductive PyErr where
  | indexError
  | zeroDivision
deriving DecidableEq, Inhabited

/-- Python float division, which raises ZeroDivisionError on a zero
divisor. -/
def divQ (a b : ℚ) : Except PyErr ℚ :=
  if b = 0 then Except.error PyErr.zeroDivision else Except.ok (a / b)

/-- Volume gate test of line 144:
`latest['volume'] < MIN_VOLUME_FACTOR * latest['avg_volume']`.
With a NaN `avg_volume` the float comparison is false. -/
def volume_below (cfg : Config) (latest : Row) : Bool :=
  match latest.avg_volume with
  | none => false
  | some a => decide (latest.volume < cfg.MIN_VOLUME_FACTOR * a)

/-- Second half of the trend-consistency gate of line 149:
`latest['close'] < latest['sma_200']`; false when `sma_200` is NaN. -/
def close_below_sma (latest : Row) : Bool :=
  match latest.sma_200 with
  | none => false
  | some s => decide (latest.close < s)

/-- Long entry condition of lines 156-158. A NaN rsi compares false. -/
def bullish_entry (cfg : Config) (latest : Row) : Bool :=
  decide (cfg.WICK_RATIO_MIN ≤ latest.wick_ratio_lower) &&
    (match latest.rsi with
     | none => false
     | some r => decide (r < cfg.RSI_OVERSOLD)) &&
    decide (latest.open_ < latest.close)

/-- Short entry condition of lines 168-170. A NaN rsi compares false. -/
def bearish_entry (cfg : Config) (latest : Row) : Bool :=
  decide (cfg.WICK_RATIO_MIN ≤ latest.wick_ratio_upper) &&
    (match latest.rsi with
     | none => false
     | some r => decide (cfg.RSI_OVERBOUGHT < r)) &&
    decide (latest.close < latest.open_)

/-- Lines 148-178 of `check_signal`: everything after the volume gate,
acting on the decision row.  `freeUSDT`/`freeETH` are the outcomes of the
two possible balance fetches. -/
def after_volume_gate (cfg : Config) (latest : Row) (daily_trend : Trend)
    (freeUSDT freeETH : Option ℚ) : Except PyErr (Option Signal) :=
  if daily_trend = Trend.bullish ∧ close_below_sma latest then Except.ok none
  else if daily_trend = Trend.bullish then
    if bullish_entry cfg latest then
      match divQ (get_balance cfg.PAPER_TRADING freeUSDT * (cfg.RISK_PERCENT / 100))
          (latest.close * (cfg.STOP_LOSS_PCT / 100)) with
      | Except.error e => Except.error e
      | Except.ok amount => Except.ok (some { side := Side.buy, amount := amount * 0.95 })
    else Except.ok none
  else if daily_trend = Trend.bearish then
    if bearish_entry cfg latest then
      match divQ (get_balance cfg.PAPER_TRADING freeETH * (cfg.RISK_PERCENT / 100))
          (cfg.STOP_LOSS_PCT / 100) with
      | Except.error e => Except.error e
      | Except.ok amount => Except.ok (some { side := Side.sell, amount := amount * 0.95 })
    else Except.ok none
  else Except.ok none

/-- Lines 143-178 of `check_signal`, acting on the decision row. -/
def decide_from_row (cfg : Config) (latest : Row) (daily_trend : Trend)
    (freeUSDT freeETH : Option ℚ) : Except PyErr (Option Signal) :=
  if volume_below cfg latest then Except.ok none
  else after_volume_gate cfg latest daily_trend freeUSDT freeETH

/-- The body of the `try` of `check_signal` (lines 138-178): build the
enriched frame from the fetched working-timeframe candles, classify the
daily trend from the fetched daily candles, take `df.iloc[-2]` (IndexError
on a frame shorter than 2), then run the gates. -/
def check_signal_body (cfg : Config) (df daily : List Candle)
    (freeUSDT freeETH : Option ℚ) : Except PyErr (Option Signal) :=
  if (get_data df).length < 2 then Except.error PyErr.indexError
  else decide_from_row cfg ((get_data df).getD ((get_data df).length - 2) default)
    (get_daily_trend daily) freeUSDT freeETH

/-- The blanket `except` of lines 180-182: any exception becomes `None`. -/
def catch_none (r : Except PyErr (Option Signal)) : Option Signal :=
  match r with
  | Except.ok s => s
  | Except.error _ => none

/-- `check_signal` (lines 137-182). -/
def check_signal (cfg : Config) (df daily : List Candle)
    (freeUSDT freeETH : Option ℚ) : Option Signal :=
  catch_none (check_signal_body cfg df daily freeUSDT freeETH)

deriving instance DecidableEq for Except

/-- `place_order` (lines 108-132).  `submitFill` is the outcome of the
live order-submission collaborator (`none` = it raised OrderError, `some p`
= filled at price `p`).  The result pairs the returned boolean with a flag
recording whether the live collaborator was invoked at all. -/
def place_order (paper : Bool) (side : Side) (symbol : String) (amount : ℚ)
    (submitFill : Option ℚ) : Bool × Bool :=
  if paper then (true, false)
  else
    match submitFill with
    | none => (false, true)
    | some _ => (true, true)

/-- Degenerate candle used by the concrete scenarios below: all four
prices equal `p`, volume `v`. -/
def mkCandle (p v : ℚ) : Candle :=
  { open_ := p, high := p, low := p, close := p, volume := v }

/-- The default configuration of lines 19-26 (RISK_PERCENT 1.0,
STOP_LOSS_PCT 1.2, MIN_VOL_FACTOR 1.0, RSI bounds 75/25, wick threshold
2.0, paper trading on). -/
def cfg0 : Config :=
  { RISK_PERCENT := 1, STOP_LOSS_PCT := 1.2, MIN_VOLUME_FACTOR := 1,
    RSI_OVERBOUGHT := 75, RSI_OVERSOLD := 25, WICK_RATIO_MIN := 2,
    PAPER_TRADING := true }

/-- Default configuration with live (non-paper) trading. -/
def cfgLive : Config := { cfg0 with PAPER_TRADING := false }

/-- Default configuration with a zero stop-loss fraction. -/
def cfgZeroStop : Config := { cfg0 with STOP_LOSS_PCT := 0 }

/-- Daily series of 200 candles whose last close (101) exceeds the
200-sample mean (100.005): classified bullish. -/
def daily200up : List Candle :=
  ((List.range 199).map (fun _ => mkCandle 100 1)) ++ [mkCandle 101 1]

/-- Daily series of 200 constant candles: the last close equals the
200-sample mean, so `close > sma_200` fails and it is classified
bearish. -/
def daily200flat : List Candle := (List.range 200).map (fun _ => mkCandle 100 1)

/-- Working series of 16 candles whose decision row (index 14) passes
every long gate: closes fall 2014…2001 then the decision candle closes at
2000 above its 1999 open with a 3-point lower wick against a 1-point body
(wick ratio just under 3), RSI 0; with fewer than 20 rows the volume
average and with fewer than 200 the long MA are undefined, so the volume
and trend-consistency gates pass. -/
def dfBuy : List Candle :=
  ((List.range 14).map (fun i => mkCandle (2014 - (i : ℚ)) 1)) ++
    [{ open_ := 1999, high := 2000, low := 1996, close := 2000, volume := 1 },
     mkCandle 2000 1]

/-- Working series of 16 candles whose decision row (index 14) passes
every short gate: closes rise 100…113 then the decision candle closes at
114 below its 115 open with a 3-point upper wick against a 1-point body,
RSI 100 (zero loss average). -/
def dfSell : List Candle :=
  ((List.range 14).map (fun i => mkCandle (100 + (i : ℚ)) 1)) ++
    [{ open_ := 115, high := 118, low := 114, close := 114, volume := 1 },
     mkCandle 114 1]

/-- Working series of 201 candles whose decision row (index 199) has a
defined 200-sample long MA of exactly 100 while closing at 90, with
uniform volume 5 so the volume gate passes: the trend-consistency gate
must reject it under a bullish regime. -/
def df201 : List Candle :=
  [mkCandle 110 5] ++ ((List.range 198).map (fun _ => mkCandle 100 5)) ++
    [mkCandle 90 5, mkCandle 90 5]

/-- Working series of 2 candles: the decision row (index 0) has an
undefined 20-sample volume average. -/
def dfShort : List Candle := [mkCandle 1 1, mkCandle 1 1]

/- Structural lemmas about the enriched frame. -/

theorem get_data_length (l : List Candle) : (get_data l).length = l.length := by
  simp [get_data]

theorem get_data_getD (l : List Candle) (i : ℕ) (h : i < l.length) (d : Row) :
    (get_data l).getD i d = rowAt l i := by
  simp [get_data, List.getD_eq_getElem?_getD, List.getElem?_map, List.getElem?_range h]

theorem get_data_getLast (l : List Candle) (h : l ≠ []) :
    (get_data l).getLast? = some (rowAt l (l.length - 1)) := by
  have hpos : 0 < l.length := List.length_pos.mpr h
  rw [List.getLast?_eq_getElem? (get_data l)]
  simp only [get_data_length]
  simp [get_data, List.getElem?_map,
    List.getElem?_range (Nat.sub_lt hpos Nat.one_pos)]

/- Prefix lemmas: every derived field of row `i` only reads data at
indices at most `i`, so appending candles after index `i` cannot change
it.  This is what makes the still-forming final candle irrelevant to the
decision row. -/

theorem rollingMean_congr (w : ℕ) (xs ys : List ℚ) (i : ℕ)
    (h : xs.take (i + 1) = ys.take (i + 1)) :
    rollingMean w xs i = rollingMean w ys i := by
  simp [rollingMean, h]

theorem getD_eq_of_take_eq (xs ys : List ℚ) (i j : ℕ) (hj : j ≤ i)
    (h : xs.take (i + 1) = ys.take (i + 1)) : xs.getD j 0 = ys.getD j 0 := by
  have hx : (xs.take (i + 1))[j]? = xs[j]? := by
    rw [List.getElem?_take]
    exact if_pos (Nat.lt_succ_of_le hj)
  have hy : (ys.take (i + 1))[j]? = ys[j]? := by
    rw [List.getElem?_take]
    exact if_pos (Nat.lt_succ_of_le hj)
  rw [List.getD_eq_getElem?_getD, List.getD_eq_getElem?_getD, ← hx, ← hy, h]

theorem deltaAt_congr (xs ys : List ℚ) (i j : ℕ) (hj : j ≤ i)
    (h : xs.take (i + 1) = ys.take (i + 1)) : deltaAt xs j = deltaAt ys j := by
  unfold deltaAt
  by_cases hj0 : j = 0
  · rw [if_pos hj0, if_pos hj0]
  · rw [if_neg hj0, if_neg hj0, getD_eq_of_take_eq xs ys i j hj h,
      getD_eq_of_take_eq xs ys i (j - 1) (le_trans (Nat.sub_le j 1) hj) h]

theorem gainAt_congr (xs ys : List ℚ) (i j : ℕ) (hj : j ≤ i)
    (h : xs.take (i + 1) = ys.take (i + 1)) : gainAt xs j = gainAt ys j := by
  unfold gainAt
  rw [deltaAt_congr xs ys i j hj h]

theorem lossAt_congr (xs ys : List ℚ) (i j : ℕ) (hj : j ≤ i)
    (h : xs.take (i + 1) = ys.take (i + 1)) : lossAt xs j = lossAt ys j := by
  unfold lossAt
  rw [deltaAt_congr xs ys i j hj h]

theorem gainSeries_take (xs : List ℚ) (i : ℕ) (h : i + 1 ≤ xs.length) :
    (gainSeries xs).take (i + 1) = (List.range (i + 1)).map (gainAt xs) := by
  unfold gainSeries
  rw [← List.map_take, List.take_range, min_eq_left h]

theorem lossSeries_take (xs : List ℚ) (i : ℕ) (h : i + 1 ≤ xs.length) :
    (lossSeries xs).take (i + 1) = (List.range (i + 1)).map (lossAt xs) := by
  unfold lossSeries
  rw [← List.map_take, List.take_range, min_eq_left h]

theorem calculate_rsi_congr (xs ys : List ℚ) (i : ℕ)
    (hx : i < xs.length) (hy : i < ys.length)
    (h : xs.take (i + 1) = ys.take (i + 1)) :
    calculate_rsi xs i = calculate_rsi ys i := by
  have hg : rollingMean 14 (gainSeries xs) i = rollingMean 14 (gainSeries ys) i := by
    apply rollingMean_congr
    rw [gainSeries_take xs i hx, gainSeries_take ys i hy]
    exact List.map_congr_left
      (fun j hj => gainAt_congr xs ys i j (Nat.lt_succ_iff.mp (List.mem_range.mp hj)) h)
  have hl : rollingMean 14 (lossSeries xs) i = rollingMean 14 (lossSeries ys) i := by
    apply rollingMean_congr
    rw [lossSeries_take xs i hx, lossSeries_take ys i hy]
    exact List.map_congr_left
      (fun j hj => lossAt_congr xs ys i j (Nat.lt_succ_iff.mp (List.mem_range.mp hj)) h)
  unfold calculate_rsi
  rw [hg, hl]

theorem rowAt_append (l l2 : List Candle) (i : ℕ) (h : i < l.length) :
    rowAt (l ++ l2) i = rowAt l i := by
  have hc : (l ++ l2).getD i default = l.getD i default :=
    List.getD_append l l2 default i h
  have hcl : ((l ++ l2).map Candle.close).take (i + 1) =
      (l.map Candle.close).take (i + 1) := by
    rw [List.map_append, List.take_append_of_le_length (by simpa using h)]
  have hvl : ((l ++ l2).map Candle.volume).take (i + 1) =
      (l.map Candle.volume).take (i + 1) := by
    rw [List.map_append, List.take_append_of_le_length (by simpa using h)]
  simp only [rowAt]
  rw [hc, rollingMean_congr 20 _ _ i hvl, rollingMean_congr 200 _ _ i hcl,
    calculate_rsi_congr _ _ i (by simpa using Nat.lt_of_lt_of_le h (by simp))
      (by simpa using h) hcl]

/- Lemmas about the shape of `check_signal`. -/

theorem check_signal_body_eq (cfg : Config) (df daily : List Candle)
    (fU fE : Option ℚ) (h : 2 ≤ df.length) :
    check_signal_body cfg df daily fU fE =
      decide_from_row cfg (rowAt df (df.length - 2)) (get_daily_trend daily) fU fE := by
  unfold check_signal_body
  rw [get_data_length, if_neg (by omega), get_data_getD df (df.length - 2) (by omega)]

theorem catch_none_eq_some (r : Except PyErr (Option Signal)) (sig : Signal)
    (h : catch_none r = some sig) : r = Except.ok (some sig) := by
  cases r with
  | ok s => cases s <;> simp_all [catch_none]
  | error e => simp [catch_none] at h

theorem divQ_eq_ok (a b x : ℚ) (h : divQ a b = Except.ok x) : b ≠ 0 ∧ x = a / b := by
  unfold divQ at h
  by_cases hb : b = 0
  · rw [if_pos hb] at h
    exact absurd h (by simp)
  · rw [if_neg hb] at h
    injection h with h
    exact ⟨hb, h.symm⟩

theorem after_volume_gate_unknown (cfg : Config) (latest : Row) (fU fE : Option ℚ) :
    after_volume_gate cfg latest Trend.unknown fU fE = Except.ok none := by
  simp [after_volume_gate]

theorem after_volume_gate_eq_some (cfg : Config) (latest : Row) (trend : Trend)
    (fU fE : Option ℚ) (sig : Signal)
    (h : after_volume_gate cfg latest trend fU fE = Except.ok (some sig)) :
    (trend = Trend.bullish ∧ bullish_entry cfg latest = true ∧
      latest.close * (cfg.STOP_LOSS_PCT / 100) ≠ 0 ∧
      sig = { side := Side.buy,
              amount := get_balance cfg.PAPER_TRADING fU * (cfg.RISK_PERCENT / 100) /
                (latest.close * (cfg.STOP_LOSS_PCT / 100)) * 0.95 }) ∨
    (trend = Trend.bearish ∧ bearish_entry cfg latest = true ∧
      cfg.STOP_LOSS_PCT / 100 ≠ 0 ∧
      sig = { side := Side.sell,
              amount := get_balance cfg.PAPER_TRADING fE * (cfg.RISK_PERCENT / 100) /
                (cfg.STOP_LOSS_PCT / 100) * 0.95 }) := by
  unfold after_volume_gate at h
  cases trend with
  | unknown => simp at h
  | bullish =>
    left
    by_cases hcb : close_below_sma latest = true
    · rw [if_pos ⟨rfl, hcb⟩] at h
      exact absurd h (by simp)
    · rw [if_neg (fun hc => hcb hc.2), if_pos rfl] at h
      by_cases hent : bullish_entry cfg latest = true
      · rw [if_pos hent] at h
        rcases hdq : divQ (get_balance cfg.PAPER_TRADING fU * (cfg.RISK_PERCENT / 100))
            (latest.close * (cfg.STOP_LOSS_PCT / 100)) with e | amount
        · rw [hdq] at h
          exact absurd h (by simp)
        · rw [hdq] at h
          obtain ⟨hbne, hamt⟩ := divQ_eq_ok _ _ _ hdq
          injection h with h
          injection h with h
          refine ⟨rfl, hent, hbne, ?_⟩
          rw [← h, hamt]
      · rw [if_neg hent] at h
        exact absurd h (by simp)
  | bearish =>
    right
    rw [if_neg (fun hc => absurd hc.1 (by simp)), if_neg (by simp), if_pos rfl] at h
    by_cases hent : bearish_entry cfg latest = true
    · rw [if_pos hent] at h
      rcases hdq : divQ (get_balance cfg.PAPER_TRADING fE * (cfg.RISK_PERCENT / 100))
          (cfg.STOP_LOSS_PCT / 100) with e | amount
      · rw [hdq] at h
        exact absurd h (by simp)
      · rw [hdq] at h
        obtain ⟨hbne, hamt⟩ := divQ_eq_ok _ _ _ hdq
        injection h with h
        injection h with h
        refine ⟨rfl, hent, hbne, ?_⟩
        rw [← h, hamt]
    · rw [if_neg hent] at h
      exact absurd h (by simp)

theorem check_signal_eq_some_inv (cfg : Config) (df daily : List Candle)
    (fU fE : Option ℚ) (sig : Signal)
    (h : check_signal cfg df daily fU fE = some sig) :
    2 ≤ df.length ∧
    volume_below cfg (rowAt df (df.length - 2)) = false ∧
    ((get_daily_trend daily = Trend.bullish ∧
      bullish_entry cfg (rowAt df (df.length - 2)) = true ∧
      (rowAt df (df.length - 2)).close * (cfg.STOP_LOSS_PCT / 100) ≠ 0 ∧
      sig = { side := Side.buy,
              amount := get_balance cfg.PAPER_TRADING fU * (cfg.RISK_PERCENT / 100) /
                ((rowAt df (df.length - 2)).close * (cfg.STOP_LOSS_PCT / 100)) * 0.95 }) ∨
     (get_daily_trend daily = Trend.bearish ∧
      bearish_entry cfg (rowAt df (df.length - 2)) = true ∧
      cfg.STOP_LOSS_PCT / 100 ≠ 0 ∧
      sig = { side := Side.sell,
              amount := get_balance cfg.PAPER_TRADING fE * (cfg.RISK_PERCENT / 100) /
                (cfg.STOP_LOSS_PCT / 100) * 0.95 })) := by
  unfold check_signal at h
  have hb := catch_none_eq_some _ _ h
  by_cases hlen : df.length < 2
  · unfold check_signal_body at hb
    rw [get_data_length, if_pos hlen] at hb
    exact absurd hb (by simp)
  · rw [check_signal_body_eq cfg df daily fU fE (by omega)] at hb
    unfold decide_from_row at hb
    by_cases hvb : volume_below cfg (rowAt df (df.length - 2)) = true
    · rw [if_pos hvb] at hb
      exact absurd hb (by simp)
    · rw [if_neg hvb] at hb
      exact ⟨by omega, by simpa using hvb, after_volume_gate_eq_some _ _ _ _ _ _ hb⟩

/- Nonnegativity of the Wilder gain/loss averages. -/

theorem gainAt_nonneg (xs : List ℚ) (j : ℕ) : 0 ≤ gainAt xs j := by
  unfold gainAt
  by_cases hd : 0 < deltaAt xs j
  · rw [if_pos hd]
    exact le_of_lt hd
  · rw [if_neg hd]

theorem lossAt_nonneg (xs : List ℚ) (j : ℕ) : 0 ≤ lossAt xs j := by
  unfold lossAt
  by_cases hd : deltaAt xs j < 0
  · rw [if_pos hd]
    exact neg_nonneg.mpr (le_of_lt hd)
  · rw [if_neg hd]

theorem gainSeries_mem_nonneg (xs : List ℚ) (x : ℚ) (hx : x ∈ gainSeries xs) :
    0 ≤ x := by
  unfold gainSeries at hx
  obtain ⟨j, hj, rfl⟩ := List.mem_map.mp hx
  exact gainAt_nonneg xs j

theorem lossSeries_mem_nonneg (xs : List ℚ) (x : ℚ) (hx : x ∈ lossSeries xs) :
    0 ≤ x := by
  unfold lossSeries at hx
  obtain ⟨j, hj, rfl⟩ := List.mem_map.mp hx
  exact lossAt_nonneg xs j

theorem rollingMean_nonneg (w : ℕ) (xs : List ℚ) (i : ℕ) (m : ℚ)
    (hxs : ∀ x ∈ xs, 0 ≤ x) (h : rollingMean w xs i = some m) : 0 ≤ m := by
  unfold rollingMean at h
  by_cases hw : i + 1 < w
  · rw [if_pos hw] at h
    exact absurd h (by simp)
  · rw [if_neg hw] at h
    injection h with h
    rw [← h]
    exact div_nonneg
      (List.sum_nonneg fun x hx => hxs x (List.mem_of_mem_take (List.mem_of_mem_drop hx)))
      (Nat.cast_nonneg w)

/- The ten claims. -/

/-- C1: whenever the daily fetch returns at most the 50 requested candles,
the 200-sample long MA of the latest daily row is undefined, so
`get_daily_trend` classifies the regime as unknown; consequently
`check_signal` returns no signal on every such cycle, for every working
series, configuration and balances. -/
theorem C1_short_daily_fetch_no_signal (daily : List Candle)
    (h : daily.length ≤ 50) :
    get_daily_trend daily = Trend.unknown ∧
    ∀ (cfg : Config) (df : List Candle) (fU fE : Option ℚ),
      check_signal cfg df daily fU fE = none := by
  have htrend : get_daily_trend daily = Trend.unknown := by
    by_cases hnil : daily = []
    · rw [hnil]
      rfl
    · unfold get_daily_trend
      rw [get_data_getLast daily hnil]
      have h1 : 1 ≤ daily.length := List.length_pos.mpr hnil
      have hlt : daily.length - 1 + 1 < 200 := by omega
      simp [rowAt, rollingMean, hlt]
  refine ⟨htrend, fun cfg df fU fE => ?_⟩
  unfold check_signal
  by_cases hlen : df.length < 2
  · unfold check_signal_body
    rw [get_data_length, if_pos hlen]
    rfl
  · rw [check_signal_body_eq cfg df daily fU fE (by omega)]
    unfold decide_from_row
    by_cases hvb : volume_below cfg (rowAt df (df.length - 2)) = true
    · rw [if_pos hvb]
      rfl
    · rw [if_neg hvb, htrend, after_volume_gate_unknown]
      rfl

/-- C1 witness: the empty daily fetch result. -/
theorem C1_witness :
    ([] : List Candle).length ≤ 50 ∧
    get_daily_trend [] = Trend.unknown ∧
    check_signal cfg0 [] [] none none = none :=
  ⟨by decide, (C1_short_daily_fetch_no_signal [] (by decide)).1,
    (C1_short_daily_fetch_no_signal [] (by decide)).2 cfg0 [] none none⟩

/-- C2: for a working series `xs ++ [c]` of length N ≥ 2, the decision is
computed from the row at index N−2, whose analytics `rowAt xs (N−2)` are
computed without the final candle; replacing the final candle `c` by any
`c'` leaves the result unchanged — the still-forming last row is never
used. -/
theorem C2_decision_uses_second_to_last (cfg : Config) (daily : List Candle)
    (fU fE : Option ℚ) (xs : List Candle) (c c' : Candle) (hxs : xs ≠ []) :
    check_signal cfg (xs ++ [c]) daily fU fE =
      catch_none (decide_from_row cfg (rowAt xs (xs.length - 1))
        (get_daily_trend daily) fU fE) ∧
    check_signal cfg (xs ++ [c]) daily fU fE =
      check_signal cfg (xs ++ [c']) daily fU fE := by
  have hpos : 1 ≤ xs.length := List.length_pos.mpr hxs
  have key : ∀ d : Candle, check_signal cfg (xs ++ [d]) daily fU fE =
      catch_none (decide_from_row cfg (rowAt xs (xs.length - 1))
        (get_daily_trend daily) fU fE) := by
    intro d
    have hlen : 2 ≤ (xs ++ [d]).length := by
      simp [List.length_append]
      omega
    unfold check_signal
    rw [check_signal_body_eq cfg (xs ++ [d]) daily fU fE hlen]
    have hidx : (xs ++ [d]).length - 2 = xs.length - 1 := by
      simp [List.length_append]
    rw [hidx, rowAt_append xs [d] (xs.length - 1) (by omega)]
  exact ⟨key c, (key c).trans (key c').symm⟩

/-- C2 witness: a two-candle series. -/
theorem C2_witness :
    check_signal cfg0 ([mkCandle 1 1] ++ [mkCandle 2 1]) [] none none =
      catch_none (decide_from_row cfg0
        (rowAt [mkCandle 1 1] ([mkCandle 1 1].length - 1))
        (get_daily_trend []) none none) ∧
    check_signal cfg0 ([mkCandle 1 1] ++ [mkCandle 2 1]) [] none none =
      check_signal cfg0 ([mkCandle 1 1] ++ [mkCandle 3 1]) [] none none :=
  C2_decision_uses_second_to_last cfg0 [] none none [mkCandle 1 1]
    (mkCandle 2 1) (mkCandle 3 1) (by simp)

/-- C3: every emitted buy signal's quantity is
balance·(risk fraction) / (price·(stop fraction)) · 0.95 with the decision
candle's close as price, and every emitted sell signal's quantity is
balance·(risk fraction) / (stop fraction) · 0.95 with no division by
price (the risk/stop percentages divided by 100 are the fractions). -/
theorem C3_position_sizing (cfg : Config) (df daily : List Candle)
    (fU fE : Option ℚ) (sig : Signal)
    (h : check_signal cfg df daily fU fE = some sig) :
    (sig.side = Side.buy →
      sig.amount = get_balance cfg.PAPER_TRADING fU * (cfg.RISK_PERCENT / 100) /
        ((rowAt df (df.length - 2)).close * (cfg.STOP_LOSS_PCT / 100)) * 0.95) ∧
    (sig.side = Side.sell →
      sig.amount = get_balance cfg.PAPER_TRADING fE * (cfg.RISK_PERCENT / 100) /
        (cfg.STOP_LOSS_PCT / 100) * 0.95) := by
  obtain ⟨-, -, hcase⟩ := check_signal_eq_some_inv cfg df daily fU fE sig h
  rcases hcase with ⟨-, -, -, hsig⟩ | ⟨-, -, -, hsig⟩
  · rw [hsig]
    exact ⟨fun _ => rfl, fun hs => absurd hs (by simp)⟩
  · rw [hsig]
    exact ⟨fun hs => absurd hs (by simp), fun _ => rfl⟩

/-- C3 witness: the spec's numbers. Balance 1000 (paper mode), risk
fraction 0.01, stop fraction 0.012, decision price 2000: the buy quantity
is 19/48 ≈ 0.3958 and the sell quantity 2375/3 ≈ 791.67. -/
theorem C3_witness :
    check_signal cfg0 dfBuy daily200up none none =
      some { side := Side.buy, amount := 19 / 48 } ∧
    (19 / 48 : ℚ) = get_balance cfg0.PAPER_TRADING none * (cfg0.RISK_PERCENT / 100) /
      ((rowAt dfBuy (dfBuy.length - 2)).close * (cfg0.STOP_LOSS_PCT / 100)) * 0.95 ∧
    check_signal cfg0 dfSell daily200flat none none =
      some { side := Side.sell, amount := 2375 / 3 } ∧
    (2375 / 3 : ℚ) = get_balance cfg0.PAPER_TRADING none * (cfg0.RISK_PERCENT / 100) /
      (cfg0.STOP_LOSS_PCT / 100) * 0.95 := by
  have hb : check_signal cfg0 dfBuy daily200up none none =
      some { side := Side.buy, amount := 19 / 48 } := by decide
  have hs : check_signal cfg0 dfSell daily200flat none none =
      some { side := Side.sell, amount := 2375 / 3 } := by decide
  exact ⟨hb, (C3_position_sizing cfg0 dfBuy daily200up none none _ hb).1 rfl,
    hs, (C3_position_sizing cfg0 dfSell daily200flat none none _ hs).2 rfl⟩

/-- C4 (amended): a zero stop-loss fraction is not validated and produces
no InvalidConfiguration; on the sell path the sizing division raises a
plain ZeroDivisionError, and the blanket handler of `check_signal`
downgrades it to the benign no-signal outcome instead of letting it abort
the cycle. -/
theorem C4_zero_stop_downgraded (cfg : Config) (df daily : List Candle)
    (fU fE : Option ℚ)
    (hs : cfg.STOP_LOSS_PCT = 0) (hlen : 2 ≤ df.length)
    (htrend : get_daily_trend daily = Trend.bearish)
    (hvol : volume_below cfg (rowAt df (df.length - 2)) = false)
    (hentry : bearish_entry cfg (rowAt df (df.length - 2)) = true) :
    check_signal_body cfg df daily fU fE = Except.error PyErr.zeroDivision ∧
    check_signal cfg df daily fU fE = none := by
  have hbody : check_signal_body cfg df daily fU fE =
      Except.error PyErr.zeroDivision := by
    rw [check_signal_body_eq cfg df daily fU fE hlen, htrend]
    unfold decide_from_row
    rw [if_neg (by simp [hvol])]
    unfold after_volume_gate
    rw [if_neg (by simp), if_neg (by simp), if_pos rfl, if_pos hentry]
    have hdq : divQ (get_balance cfg.PAPER_TRADING fE * (cfg.RISK_PERCENT / 100))
        (cfg.STOP_LOSS_PCT / 100) = Except.error PyErr.zeroDivision := by
      unfold divQ
      rw [hs]
      norm_num
    rw [hdq]
  refine ⟨hbody, ?_⟩
  unfold check_signal
  rw [hbody]
  rfl

/-- C4 counterexample: with the stop-loss percentage set to 0 and a cycle
that reaches the sell-path sizing, the cycle is not aborted by any
InvalidConfiguration: it completes with the benign no-signal outcome,
the internal failure being a plain division-by-zero error. -/
theorem C4_counterexample :
    check_signal cfgZeroStop dfSell daily200flat none none = none ∧
    check_signal_body cfgZeroStop dfSell daily200flat none none =
      Except.error PyErr.zeroDivision :=
  ⟨by decide, by decide⟩

/-- C4 witness: the amended claim applied at the concrete zero-stop-loss
scenario. -/
theorem C4_witness :
    cfgZeroStop.STOP_LOSS_PCT = 0 ∧ 2 ≤ dfSell.length ∧
    get_daily_trend daily200flat = Trend.bearish ∧
    volume_below cfgZeroStop (rowAt dfSell (dfSell.length - 2)) = false ∧
    bearish_entry cfgZeroStop (rowAt dfSell (dfSell.length - 2)) = true ∧
    check_signal_body cfgZeroStop dfSell daily200flat none none =
      Except.error PyErr.zeroDivision ∧
    check_signal cfgZeroStop dfSell daily200flat none none = none := by
  have h := C4_zero_stop_downgraded cfgZeroStop dfSell daily200flat none none
    (by decide) (by decide) (by decide) (by decide) (by decide)
  exact ⟨by decide, by decide, by decide, by decide, by decide, h.1, h.2⟩

/-- C5: every defined RSI value lies in [0, 100]; and whenever the
trailing loss average is exactly 0 with a positive gain average, the RSI
is exactly 100 (the float computation saturates through +inf rather than
producing NaN). -/
theorem C5_rsi_bounded (xs : List ℚ) (i : ℕ) :
    (∀ r : ℚ, calculate_rsi xs i = some r → 0 ≤ r ∧ r ≤ 100) ∧
    (∀ g : ℚ, rollingMean 14 (lossSeries xs) i = some 0 →
      rollingMean 14 (gainSeries xs) i = some g → 0 < g →
      calculate_rsi xs i = some 100) := by
  constructor
  · intro r hr
    rcases hg : rollingMean 14 (gainSeries xs) i with _ | g
    · simp [calculate_rsi, hg] at hr
    rcases hl : rollingMean 14 (lossSeries xs) i with _ | l
    · simp [calculate_rsi, hg, hl] at hr
    simp only [calculate_rsi, hg, hl] at hr
    have hg0 : 0 ≤ g := rollingMean_nonneg _ _ _ _ (gainSeries_mem_nonneg xs) hg
    have hl0 : 0 ≤ l := rollingMean_nonneg _ _ _ _ (lossSeries_mem_nonneg xs) hl
    by_cases hlz : l = 0
    · rw [if_pos hlz] at hr
      by_cases hgz : g = 0
      · rw [if_pos hgz] at hr
        exact absurd hr (by simp)
      · rw [if_neg hgz] at hr
        injection hr with hr
        rw [← hr]
        norm_num
    · rw [if_neg hlz] at hr
      injection hr with hr
      have hlp : 0 < l := lt_of_le_of_ne hl0 (Ne.symm hlz)
      have hq : 0 ≤ g / l := div_nonneg hg0 (le_of_lt hlp)
      have hle : 100 / (1 + g / l) ≤ 100 := div_le_self (by norm_num) (by linarith)
      have hge : (0 : ℚ) ≤ 100 / (1 + g / l) := div_nonneg (by norm_num) (by linarith)
      exact ⟨by linarith, by linarith⟩
  · intro g h0 hg hgpos
    simp [calculate_rsi, hg, h0, ne_of_gt hgpos]

/-- C5 witness: on the strictly rising close series 0,1,…,14, the loss
average at index 14 is 0, the gain average 1, the RSI exactly 100, and
100 lies in [0, 100]. -/
theorem C5_witness :
    rollingMean 14 (lossSeries ((List.range 15).map (fun i => (i : ℚ)))) 14 = some 0 ∧
    rollingMean 14 (gainSeries ((List.range 15).map (fun i => (i : ℚ)))) 14 = some 1 ∧
    calculate_rsi ((List.range 15).map (fun i => (i : ℚ))) 14 = some 100 ∧
    (0 : ℚ) ≤ 100 ∧ (100 : ℚ) ≤ 100 := by
  have h0 : rollingMean 14 (lossSeries ((List.range 15).map (fun i => (i : ℚ)))) 14 =
      some 0 := by decide
  have h1 : rollingMean 14 (gainSeries ((List.range 15).map (fun i => (i : ℚ)))) 14 =
      some 1 := by decide
  have h100 := (C5_rsi_bounded ((List.range 15).map (fun i => (i : ℚ))) 14).2 1 h0 h1
    (by norm_num)
  have hb := (C5_rsi_bounded ((List.range 15).map (fun i => (i : ℚ))) 14).1 100 h100
  exact ⟨h0, h1, h100, hb.1, hb.2⟩

/-- C6: when the volume gate passes, the regime is bullish and the
decision candle closes strictly below its defined 200-sample MA, the
evaluator returns no signal, with no hypothesis on wick ratio, RSI or
close-versus-open. -/
theorem C6_trend_gate (cfg : Config) (df daily : List Candle)
    (fU fE : Option ℚ) (m : ℚ)
    (hlen : 2 ≤ df.length)
    (htrend : get_daily_trend daily = Trend.bullish)
    (hvol : volume_below cfg (rowAt df (df.length - 2)) = false)
    (hsma : (rowAt df (df.length - 2)).sma_200 = some m)
    (hlt : (rowAt df (df.length - 2)).close < m) :
    check_signal cfg df daily fU fE = none := by
  unfold check_signal
  rw [check_signal_body_eq cfg df daily fU fE hlen, htrend]
  unfold decide_from_row
  rw [if_neg (by simp [hvol])]
  unfold after_volume_gate
  rw [if_pos ⟨rfl, by simp [close_below_sma, hsma, hlt]⟩]
  rfl

/-- C6 witness: a bullish regime with the decision candle at close 90
under a defined long MA of exactly 100 (the spec's numbers) and a passing
volume gate. -/
theorem C6_witness : check_signal cfg0 df201 daily200up none none = none :=
  C6_trend_gate cfg0 df201 daily200up none none 100 (by decide) (by decide)
    (by decide) (by decide) (by decide)

/-- C7 (amended): the indicator pipeline never fails: on any input,
including the empty candle list, it returns an enriched series of the
same length (pandas raises nothing while enriching an empty frame). -/
theorem C7_pipeline_total (candles : List Candle) :
    (get_data candles).length = candles.length := by
  simp [get_data]

/-- C7 counterexample: on the empty input the pipeline returns the empty
enriched series rather than failing with InsufficientData. -/
theorem C7_counterexample : get_data [] = [] := rfl

/-- C8: in paper-trading mode `place_order` returns success for every
side, symbol, quantity and every possible behaviour of the live
order-submission collaborator, and never invokes that collaborator
(second component false). -/
theorem C8_paper_mode (side : Side) (symbol : String) (amount : ℚ)
    (submitFill : Option ℚ) :
    place_order true side symbol amount submitFill = (true, false) := rfl

/-- C9 (amended): an emitted signal's quantity is strictly positive
provided the risk and stop-loss percentages are positive and the balance
reported for the traded side is strictly positive (for a buy,
additionally the decision candle's close is positive); the other side's
balance fetch is irrelevant.  With a zero reported balance for the traded
side (zero account or failed fetch) a signal can still be emitted and
then has quantity 0. -/
theorem C9_positive_amount (cfg : Config) (df daily : List Candle)
    (fU fE : Option ℚ) (sig : Signal)
    (h : check_signal cfg df daily fU fE = some sig)
    (hr : 0 < cfg.RISK_PERCENT) (hsl : 0 < cfg.STOP_LOSS_PCT) :
    (sig.side = Side.buy → 0 < get_balance cfg.PAPER_TRADING fU →
      0 < (rowAt df (df.length - 2)).close → 0 < sig.amount) ∧
    (sig.side = Side.sell → 0 < get_balance cfg.PAPER_TRADING fE →
      0 < sig.amount) := by
  obtain ⟨-, -, hcase⟩ := check_signal_eq_some_inv cfg df daily fU fE sig h
  rcases hcase with ⟨-, -, -, hsig⟩ | ⟨-, -, -, hsig⟩ <;> rw [hsig]
  · refine ⟨fun _ hU hp => ?_, fun hside => absurd hside (by simp)⟩
    exact mul_pos (div_pos (mul_pos hU (div_pos hr (by norm_num)))
      (mul_pos hp (div_pos hsl (by norm_num)))) (by norm_num)
  · refine ⟨fun hside => absurd hside (by simp), fun _ hE => ?_⟩
    exact mul_pos (div_pos (mul_pos hE (div_pos hr (by norm_num)))
      (div_pos hsl (by norm_num))) (by norm_num)

/-- C9 counterexample: in live mode with a failed (or empty) balance
fetch the evaluator still emits a buy signal, and its quantity is 0 —
not strictly positive. -/
theorem C9_counterexample :
    check_signal cfgLive dfBuy daily200up none none =
      some { side := Side.buy, amount := 0 } ∧
    ¬ (0 : ℚ) < 0 :=
  ⟨by decide, by simp⟩

/-- C9 witness: with the paper balance of 1000 the emitted buy quantity
19/48 is strictly positive; and in live mode with a failed USDT fetch but
a positive ETH balance of 10, the emitted sell quantity 95/12 is strictly
positive — only the traded side's balance matters. -/
theorem C9_witness :
    (check_signal cfg0 dfBuy daily200up none none =
      some { side := Side.buy, amount := 19 / 48 } ∧
     0 < ({ side := Side.buy, amount := 19 / 48 } : Signal).amount) ∧
    (check_signal cfgLive dfSell daily200flat none (some 10) =
      some { side := Side.sell, amount := 95 / 12 } ∧
     0 < ({ side := Side.sell, amount := 95 / 12 } : Signal).amount) := by
  have hb : check_signal cfg0 dfBuy daily200up none none =
      some { side := Side.buy, amount := 19 / 48 } := by decide
  have hsl : check_signal cfgLive dfSell daily200flat none (some 10) =
      some { side := Side.sell, amount := 95 / 12 } := by decide
  refine ⟨⟨hb, ?_⟩, ⟨hsl, ?_⟩⟩
  · exact (C9_positive_amount cfg0 dfBuy daily200up none none _ hb (by decide)
      (by decide)).1 rfl (by decide) (by decide)
  · exact (C9_positive_amount cfgLive dfSell daily200flat none (some 10) _ hsl
      (by decide) (by decide)).2 rfl (by decide)

/-- C10: when the decision row's 20-sample volume average is undefined
(series shorter than 20 at that index), the volume gate comparison is
false, so the gate never rejects and evaluation proceeds to the
trend-consistency gate and the rest of the decision sequence. -/
theorem C10_volume_gate_passes (cfg : Config) (df daily : List Candle)
    (fU fE : Option ℚ)
    (hlen : 2 ≤ df.length)
    (hav : (rowAt df (df.length - 2)).avg_volume = none) :
    volume_below cfg (rowAt df (df.length - 2)) = false ∧
    check_signal cfg df daily fU fE =
      catch_none (after_volume_gate cfg (rowAt df (df.length - 2))
        (get_daily_trend daily) fU fE) := by
  have hvb : volume_below cfg (rowAt df (df.length - 2)) = false := by
    unfold volume_below
    rw [hav]
  refine ⟨hvb, ?_⟩
  unfold check_signal
  rw [check_signal_body_eq cfg df daily fU fE hlen]
  unfold decide_from_row
  rw [if_neg (by simp [hvb])]

/-- C10 witness: a two-candle series, whose decision row has an undefined
volume average. -/
theorem C10_witness :
    volume_below cfg0 (rowAt dfShort (dfShort.length - 2)) = false ∧
    check_signal cfg0 dfShort [] none none =
      catch_none (after_volume_gate cfg0 (rowAt dfShort (dfShort.length - 2))
        (get_daily_trend []) none none) :=
  C10_volume_gate_passes cfg0 dfShort [] none none (by decide) (by decide)

end Bestbot
